import Mathlib

/-!
Verification development for the movie/TV rating-aggregation engine in
src/movie-tv-server/enhanced_api.py. Each Python method is shallowly
embedded as a Lean function; network calls are passed in as explicit
oracle functions, numbers are modelled as rationals, and the possibility
of an uncaught Python exception (ValueError from int()/float()) is
modelled with the Except monad.
-/

namespace MovieApi

/-! ## String utilities modelling Python primitives -/

/-- Checks whether the char list `need` is a leading segment of `hay`. -/
def listPre : List Char → List Char → Bool
  | [], _ => true
  | _ :: _, [] => false
  | a :: as, b :: bs => a == b && listPre as bs

/-- Models the Python expression `need in hay` on strings: substring test. -/
def strContains (hay need : String) : Bool :=
  (hay.toList.tails).any (fun t => listPre need.toList t)

/-- ASCII lowercasing of one character. -/
def charLower (c : Char) : Char :=
  if 'A' ≤ c ∧ c ≤ 'Z' then Char.ofNat (c.toNat + 32) else c

/-- Models Python `s.lower()` on the ASCII provider names the code
compares. -/
def strToLower (s : String) : String := ⟨s.toList.map charLower⟩

/-- Value of a decimal digit character, none otherwise. -/
def digitVal (c : Char) : Option Nat :=
  if c.isDigit then some (c.toNat - 48) else none

/-- Parses a nonempty all-digit char list into a natural number. -/
def parseDigits : List Char → Option Nat
  | [] => none
  | cs =>
    cs.foldl (fun acc c =>
      match acc, digitVal c with
      | some a, some d => some (a * 10 + d)
      | _, _ => none) (some 0)

/-- Models Python `int(s)` on a string already stripped of `%`:
optional sign followed by digits; any other shape raises ValueError,
modelled as none. -/
def pyInt : String → Option Int := fun s =>
  match s.toList with
  | '-' :: rest => (parseDigits rest).map (fun n => -(n : Int))
  | '+' :: rest => (parseDigits rest).map (fun n => (n : Int))
  | cs => (parseDigits cs).map (fun n => (n : Int))

/-- Models Python `float(s)` on decimal literals: optional sign, digits,
optional point and fraction digits; anything else raises ValueError,
modelled as none. -/
def pyFloat : String → Option ℚ := fun s =>
  let parseUnsigned : List Char → Option ℚ := fun cs =>
    match cs.splitOn '.' with
    | [intPart] => (parseDigits intPart).map (fun n => (n : ℚ))
    | [intPart, fracPart] =>
      match intPart, fracPart with
      | [], [] => none
      | [], f => (parseDigits f).map (fun n => (n : ℚ) / 10 ^ f.length)
      | i, [] => (parseDigits i).map (fun n => (n : ℚ))
      | i, f =>
        match parseDigits i, parseDigits f with
        | some a, some b => some ((a : ℚ) + (b : ℚ) / 10 ^ f.length)
        | _, _ => none
    | _ => none
  match s.toList with
  | '-' :: rest => (parseUnsigned rest).map (fun q => -q)
  | '+' :: rest => parseUnsigned rest
  | cs => parseUnsigned cs

/-- Models Python `s.replace(c, emptyString)`: removes every occurrence
of the character. -/
def removeChar (s : String) (c : Char) : String :=
  ⟨s.toList.filter (fun x => x ≠ c)⟩

/-- Models Python `s.split(sep)[0]` for a single-character separator:
everything before the first occurrence, or the whole string. -/
def headBeforeChar (s : String) (c : Char) : String :=
  ⟨s.toList.takeWhile (fun x => x ≠ c)⟩

/-! ## Data model: provider payloads -/

/-- One entry of the OMDb `Ratings` array. -/
structure OmdbRatingEntry where
  source : String
  value : String
deriving DecidableEq, Repr

/-- The JSON payload of one OMDb response, with the fields the code
reads. A missing JSON key is `none`. -/
structure OmdbPayload where
  response : Option String := none
  imdbRating : Option String := none
  ratingEntries : List OmdbRatingEntry := []
  awards : Option String := none
  boxOffice : Option String := none
  plot : Option String := none
deriving DecidableEq, Repr

/-- The TMDB movie-details payload, with the fields the code reads.
A missing JSON key is `none`. -/
structure TmdbData where
  title : String := ""
  voteAverage : Option ℚ := none
  imdbId : Option String := none
  genres : List String := []
  runtime : Option ℚ := none
  overview : Option String := none
deriving DecidableEq, Repr

/-- One element of a TMDB search-result list, with the fields the code
reads. -/
structure Movie where
  id : Nat
  title : String := ""
  releaseDate : Option String := none
deriving DecidableEq, Repr

/-- The ratings dictionary built by `_combine_ratings`. The code
initialises every field to the number 0 and overwrites fields for which
provider data parses. -/
structure Ratings where
  tmdb : ℚ
  imdb : ℚ
  rottenTomatoes : ℚ
  metacritic : ℚ
deriving DecidableEq, Repr

/-- A transport-level outcome of one HTTP request: a JSON payload, or a
requests.RequestException. -/
inductive HttpResult where
  | success (payload : OmdbPayload)
  | failure (message : String)
deriving DecidableEq, Repr

/-! ## _make_omdb_request -/

/-- Embeds `_make_omdb_request`: on transport failure the method prints
and returns None; on success it returns None when the payload carries
the explicit `Response == False` flag, and the payload otherwise. -/
def make_omdb_request (transport : HttpResult) : Option OmdbPayload :=
  match transport with
  | .success data => if data.response = some "False" then none else some data
  | .failure _ => none

/-! ## _combine_ratings -/

/-- Python truthiness of an optional string: present and nonempty. -/
def strTruthy : Option String → Bool
  | some s => s ≠ ""
  | none => false

/-- Embeds the loop body of `_combine_ratings` over one entry of the
OMDb `Ratings` array. `int()` on an unparseable string raises
ValueError, modelled as `.error`. -/
def combineRatingsStep (acc : Ratings) (entry : OmdbRatingEntry) :
    Except String Ratings :=
  let src := strToLower entry.source
  if strContains src "rotten tomatoes" then
    match pyInt (removeChar entry.value '%') with
    | some v => .ok { acc with rottenTomatoes := (v : ℚ) }
    | none => .error "ValueError: invalid literal for int()"
  else if strContains src "metacritic" then
    match pyInt (headBeforeChar entry.value '/') with
    | some v => .ok { acc with metacritic := (v : ℚ) }
    | none => .error "ValueError: invalid literal for int()"
  else
    .ok acc

/-- Embeds `_combine_ratings`: every field defaults to 0; the imdb field
is overwritten from `imdbRating` when present, truthy and not the string
N/A (`float()` raising on an unparseable value); the Rotten Tomatoes and
Metacritic fields are overwritten from the `Ratings` array. -/
def combine_ratings (tmdbData : TmdbData) (omdbData : Option OmdbPayload) :
    Except String Ratings :=
  let base : Ratings :=
    { tmdb := tmdbData.voteAverage.getD 0
      imdb := 0
      rottenTomatoes := 0
      metacritic := 0 }
  match omdbData with
  | none => .ok base
  | some o => do
    let withImdb ←
      if strTruthy o.imdbRating ∧ o.imdbRating ≠ some "N/A" then
        match pyFloat (o.imdbRating.getD "") with
        | some v => Except.ok { base with imdb := v }
        | none => Except.error "ValueError: could not convert string to float"
      else
        Except.ok base
    o.ratingEntries.foldlM combineRatingsStep withImdb

/-! ## _analyze_ratings -/

/-- Embeds `_analyze_ratings`: the if/elif chain producing one analysis
string from the combined ratings. `any([imdb, rt, metacritic])` is
Python truthiness, i.e. some field is nonzero. -/
def analyze_ratings (r : Ratings) : String :=
  if ¬(r.imdb ≠ 0 ∨ r.rottenTomatoes ≠ 0 ∨ r.metacritic ≠ 0) then
    "OMDb data not available"
  else if r.imdb ≥ 8.5 then
    "Highly acclaimed (IMDb 8.5+)"
  else if r.rottenTomatoes > 0 ∧ r.imdb > 0 then
    let diff := r.imdb - r.rottenTomatoes / 10
    if |diff| ≥ 1.5 then
      if diff > 0 then "Audiences love it more than critics"
      else "Critics love it more than audiences"
    else "Critics and audiences generally agree"
  else
    "Standard rating distribution"

/-! ## get_enhanced_movie_details -/

/-- The enriched record built by `get_enhanced_movie_details`. The
awards, box office and detailed plot keys are written only when OMDb
data is present; an unwritten key is `none`. -/
structure Enhanced where
  tmdb : TmdbData
  omdbData : Option OmdbPayload
  enhancedRatings : Ratings
  ratingAnalysis : String
  awards : Option String
  boxOffice : Option String
  detailedPlot : Option String
deriving DecidableEq, Repr

/-- Embeds `get_enhanced_movie_details`. `tmdbDetails` is the oracle for
`get_movie_details` and `omdbTransport` the transport oracle for the
OMDb lookup keyed by imdb id. Returns `.ok none` when the TMDB lookup
fails, and `.error` when `_combine_ratings` raises. -/
def get_enhanced_movie_details (tmdbDetails : Nat → Option TmdbData)
    (omdbTransport : String → HttpResult) (movieId : Nat) :
    Except String (Option Enhanced) :=
  match tmdbDetails movieId with
  | none => .ok none
  | some t =>
    let omdbData : Option OmdbPayload :=
      match t.imdbId with
      | some iid =>
        if iid ≠ "" then make_omdb_request (omdbTransport iid) else none
      | none => none
    match combine_ratings t omdbData with
    | .error e => .error e
    | .ok r =>
      .ok (some
        { tmdb := t
          omdbData := omdbData
          enhancedRatings := r
          ratingAnalysis := analyze_ratings r
          awards := omdbData.map (fun o => o.awards.getD "N/A")
          boxOffice := omdbData.map (fun o => o.boxOffice.getD "N/A")
          detailedPlot :=
            omdbData.map (fun o => o.plot.getD (t.overview.getD "N/A")) })

/-- A secondary-provider request, as issued by the orchestrator. -/
inductive OmdbQuery where
  | byImdbId (iid : String)
  | byTitleYear (title : String) (year : String)
deriving DecidableEq, Repr

/-- The list of OMDb requests `get_enhanced_movie_details` issues, read
off the call sites of `_make_omdb_request` in its body: exactly one
request keyed by imdb id when the TMDB record carries a truthy
`imdb_id`, and none otherwise. -/
def omdbQueriesMade (tmdbDetails : Nat → Option TmdbData) (movieId : Nat) :
    List OmdbQuery :=
  match tmdbDetails movieId with
  | none => []
  | some t =>
    match t.imdbId with
    | some iid => if iid ≠ "" then [.byImdbId iid] else []
    | none => []

/-! ## Rounding: Python round(x, 1) -/

/-- Floor of a rational. -/
def ratFloor (q : ℚ) : ℤ := ⌊q⌋

/-- Round a rational to the nearest integer, halves to even, as Python
round does on an exact value. -/
def roundHalfEven (q : ℚ) : ℤ :=
  let f := ratFloor q
  let r := q - (f : ℚ)
  if r < 1/2 then f
  else if r > 1/2 then f + 1
  else if f % 2 = 0 then f else f + 1

/-- Models Python `round(q, 1)`. -/
def pyRound1 (q : ℚ) : ℚ := (roundHalfEven (q * 10) : ℚ) / 10

/-! ## find_rating_mismatches -/

/-- One element of the list `find_rating_mismatches` returns. -/
structure Mismatch where
  title : String
  year : String
  imdbRating : ℚ
  rottenTomatoes : ℚ
  mismatchDegree : ℚ
  analysis : String
deriving DecidableEq, Repr

/-- Models `movie.get(releaseDateKey, emptyString)[:4] if truthy else
emptyString`. -/
def movieYear (m : Movie) : String :=
  if strTruthy m.releaseDate then ⟨(m.releaseDate.getD "").toList.take 4⟩
  else ""

/-- Embeds the loop body of `find_rating_mismatches` for one already
enhanced search result: an entry is produced only when both the imdb and
Rotten Tomatoes fields are positive and the absolute normalized gap
reaches the threshold; the stored degree is the gap rounded to one
decimal. -/
def mismatchStep (minMismatch : ℚ) (movie : Movie) (enh : Enhanced) :
    Option Mismatch :=
  let r := enh.enhancedRatings
  if r.imdb > 0 ∧ r.rottenTomatoes > 0 then
    let mismatch := |r.imdb - r.rottenTomatoes / 10|
    if mismatch ≥ minMismatch then
      some
        { title := movie.title
          year := movieYear movie
          imdbRating := r.imdb
          rottenTomatoes := r.rottenTomatoes
          mismatchDegree := pyRound1 mismatch
          analysis := enh.ratingAnalysis }
    else none
  else none

/-- The loop of `find_rating_mismatches`, building the mismatch list in
provider-returned candidate order. An exception from the enhancement
call propagates. -/
def mismatchCandidatesAux (tmdbDetails : Nat → Option TmdbData)
    (omdbTransport : String → HttpResult) (minMismatch : ℚ) :
    List Movie → List Mismatch → Except String (List Mismatch)
  | [], acc => .ok acc
  | movie :: rest, acc =>
    match get_enhanced_movie_details tmdbDetails omdbTransport movie.id with
    | .error e => .error e
    | .ok none => mismatchCandidatesAux tmdbDetails omdbTransport minMismatch rest acc
    | .ok (some enh) =>
      match mismatchStep minMismatch movie enh with
      | some m =>
        mismatchCandidatesAux tmdbDetails omdbTransport minMismatch rest (acc ++ [m])
      | none => mismatchCandidatesAux tmdbDetails omdbTransport minMismatch rest acc

/-- The mismatch list of `find_rating_mismatches` before the final sort,
in provider-returned candidate order (first 10 search results). -/
def mismatchCandidates (searchResults : Option (List Movie))
    (tmdbDetails : Nat → Option TmdbData)
    (omdbTransport : String → HttpResult) (minMismatch : ℚ) :
    Except String (List Mismatch) :=
  match searchResults with
  | none => .ok []
  | some movies =>
    mismatchCandidatesAux tmdbDetails omdbTransport minMismatch (movies.take 10) []

/-- The Boolean sort relation of `sorted(key=mismatch_degree,
reverse=True)`: a stable sort with the reversed comparison. -/
def mismatchLE (a b : Mismatch) : Bool := b.mismatchDegree ≤ a.mismatchDegree

/-- Embeds `find_rating_mismatches`: the candidate list sorted by
`mismatch_degree` descending with Python's stable sort. The search
oracle result is passed in as `searchResults` (`none` models a failed or
shapeless search response, which yields the empty list). -/
def find_rating_mismatches (searchResults : Option (List Movie))
    (tmdbDetails : Nat → Option TmdbData)
    (omdbTransport : String → HttpResult) (minMismatch : ℚ) :
    Except String (List Mismatch) :=
  match mismatchCandidates searchResults tmdbDetails omdbTransport minMismatch with
  | .error e => .error e
  | .ok ms => .ok (ms.mergeSort mismatchLE)

/-! ## _determine_mood_profile -/

/-- Embeds `_determine_mood_profile`: the if/elif chain over awards
text, genres and ratings, returning the first matching profile. -/
def determine_mood_profile (r : Ratings) (genres : List String)
    (awards : String) : String :=
  if ¬ strContains awards "N/A" ∧
      (strContains awards "Oscar" ∨ strContains awards "Emmy") then
    if r.imdb ≥ 7.5 then "Prestige entertainment"
    else "Acclaimed but challenging"
  else if "Comedy" ∈ genres ∧ r.imdb ≥ 7.0 then
    "Feel-good entertainment"
  else if "Horror" ∈ genres ∧ r.rottenTomatoes ≥ 80 then
    "Smart scary"
  else if "Action" ∈ genres ∧ r.rottenTomatoes > r.imdb * 10 then
    "Stylish thrills"
  else if r.metacritic ≥ 75 then
    "Thoughtful and rewarding"
  else
    "Solid entertainment"

/-! ## _filter_by_advanced_criteria and the vibe rules -/

/-- Python truthiness of an optional number: present and nonzero. -/
def qTruthy : Option ℚ → Bool
  | some v => v ≠ 0
  | none => false

/-- The criteria dictionary passed to `_search_by_genre_and_criteria`
and `_filter_by_advanced_criteria`. A key missing from the Python dict
is `none` or `false`. -/
structure AdvancedCriteria where
  imdbMin : Option ℚ := none
  imdbAudiencePreference : Bool := false
  runtimeMax : Option ℚ := none
  runtimeMin : Option ℚ := none
  rtImdbGapMax : Option ℚ := none
  excludeGenres : List String := []
  includeGenres : List String := []
  metacriticMin : Option ℚ := none
  rtCriticsPreference : Bool := false
  similarRatingProfile : Bool := false
deriving DecidableEq, Repr

/-- Embeds `_get_vibe_modifier_rules`: the static rule table keyed by
the vibe modifier, with the default rule for an unknown key. -/
def get_vibe_modifier_rules (vibeModifier : String) (refRatings : Ratings) :
    AdvancedCriteria :=
  if vibeModifier = "accessible" then
    { imdbMin := some (max 7.0 (refRatings.imdb - 1.0))
      imdbAudiencePreference := true
      runtimeMax := some 140 }
  else if vibeModifier = "grounded" then
    { imdbMin := some 6.5
      rtImdbGapMax := some 1.0
      excludeGenres := ["Fantasy", "Science Fiction"] }
  else if vibeModifier = "cerebral" then
    { metacriticMin := some 70
      rtCriticsPreference := true
      includeGenres := ["Drama", "Thriller", "Science Fiction"] }
  else if vibeModifier = "crowd_pleasing" then
    { imdbMin := some 7.5
      imdbAudiencePreference := true
      excludeGenres := ["Documentary", "Foreign"] }
  else if vibeModifier = "challenging" then
    { metacriticMin := some 75
      rtCriticsPreference := true
      includeGenres := ["Drama", "Mystery", "Thriller"] }
  else
    { imdbMin := some (refRatings.imdb - 0.5)
      similarRatingProfile := true }

/-- The loop of `_filter_by_advanced_criteria`, with the accumulated
result list and the break once it holds 10 movies. -/
def filterByAdvancedCriteriaAux (getEnh : Nat → Except String (Option Enhanced))
    (criteria : AdvancedCriteria) :
    List Movie → List Movie → Except String (List Movie)
  | [], acc => .ok acc
  | movie :: rest, acc =>
    match getEnh movie.id with
    | .error e => .error e
    | .ok none => filterByAdvancedCriteriaAux getEnh criteria rest acc
    | .ok (some enh) =>
      let r := enh.enhancedRatings
      if criteria.imdbAudiencePreference ∧ r.rottenTomatoes > 0 ∧
          r.imdb < r.rottenTomatoes / 10 then
        filterByAdvancedCriteriaAux getEnh criteria rest acc
      else if criteria.rtCriticsPreference ∧ r.rottenTomatoes > 0 ∧
          r.imdb ≥ r.rottenTomatoes / 10 then
        filterByAdvancedCriteriaAux getEnh criteria rest acc
      else if qTruthy criteria.rtImdbGapMax ∧ r.rottenTomatoes > 0 ∧
          |r.imdb - r.rottenTomatoes / 10| > criteria.rtImdbGapMax.getD 0 then
        filterByAdvancedCriteriaAux getEnh criteria rest acc
      else if qTruthy criteria.metacriticMin ∧
          r.metacritic < criteria.metacriticMin.getD 0 then
        filterByAdvancedCriteriaAux getEnh criteria rest acc
      else
        let acc2 := acc ++ [movie]
        if acc2.length ≥ 10 then .ok acc2
        else filterByAdvancedCriteriaAux getEnh criteria rest acc2

/-- Embeds `_filter_by_advanced_criteria`. -/
def filter_by_advanced_criteria (getEnh : Nat → Except String (Option Enhanced))
    (movies : List Movie) (criteria : AdvancedCriteria) :
    Except String (List Movie) :=
  filterByAdvancedCriteriaAux getEnh criteria movies []

/-- Embeds `_search_by_genre_and_criteria`. The TMDB Discovery request
(whose parameters push down the numeric, runtime, date and genre-id
constraints of the criteria) is the oracle `discover` keyed by genre; a
failed or shapeless response is `none` and yields the empty list. -/
def search_by_genre_and_criteria (discover : String → Option (List Movie))
    (getEnh : Nat → Except String (Option Enhanced)) (genre : String)
    (criteria : AdvancedCriteria) (limit : Nat) :
    Except String (List Movie) :=
  match discover genre with
  | some movies => filter_by_advanced_criteria getEnh (movies.take limit) criteria
  | none => .ok []

/-! ## find_vibe_movies -/

/-- The duplicate-removal loop of `find_vibe_movies`: keeps the first
occurrence of each id not in `seen`, threading the growing seen set. -/
def dedupeNew : List Movie → List Nat → List Movie
  | [], _ => []
  | m :: rest, seen =>
    if m.id ∈ seen then dedupeNew rest seen
    else m :: dedupeNew rest (m.id :: seen)

/-- The candidate-gathering loop of `find_vibe_movies` over the top two
reference genres, extending the recommendations list per genre. -/
def vibeRecsAux (discover : String → Option (List Movie))
    (getEnh : Nat → Except String (Option Enhanced))
    (vibeRules : AdvancedCriteria) (limit : Nat) :
    List String → List Movie → Except String (List Movie)
  | [], acc => .ok acc
  | genre :: rest, acc =>
    match search_by_genre_and_criteria discover getEnh genre vibeRules
        (limit * 2) with
    | .error e => .error e
    | .ok genreMovies => vibeRecsAux discover getEnh vibeRules limit rest (acc ++ genreMovies)

/-- Embeds `find_vibe_movies`: resolve the reference movie from the
search results, build the vibe rules, gather candidates from the top two
reference genres, drop the reference movie and duplicate ids, and cap at
`limit`. -/
def find_vibe_movies (searchResults : Option (List Movie))
    (getEnh : Nat → Except String (Option Enhanced))
    (discover : String → Option (List Movie))
    (vibeModifier : String) (limit : Nat) : Except String (List Movie) :=
  match searchResults with
  | none => .ok []
  | some [] => .ok []
  | some (refMovie :: _) =>
    match getEnh refMovie.id with
    | .error e => .error e
    | .ok none => .ok []
    | .ok (some refDetails) =>
      let refRatings := refDetails.enhancedRatings
      let refGenres := refDetails.tmdb.genres
      let vibeRules := get_vibe_modifier_rules vibeModifier refRatings
      match vibeRecsAux discover getEnh vibeRules limit (refGenres.take 2) [] with
      | .error e => .error e
      | .ok recommendations =>
        .ok ((dedupeNew recommendations [refMovie.id]).take limit)

/-! ## _filter_by_personality_pattern -/

/-- The rules dictionary of `find_rating_personality`. A key missing
from the Python dict is `none` or `false`. -/
structure PersonalityRules where
  rtCriticsMuchHigher : Bool := false
  imdbMuchHigher : Bool := false
  minGap : Option ℚ := none
  imdbMin : Option ℚ := none
  rtMin : Option ℚ := none
  rtMax : Option ℚ := none
  metacriticMin : Option ℚ := none
  awardsRequired : Bool := false
  ageMin : Option ℚ := none
deriving DecidableEq, Repr

/-- The awards check of `_filter_by_personality_pattern`: the movie is
skipped when the awards text contains N/A or contains none of the known
award tokens. -/
def awardsCheckFails (enh : Enhanced) : Bool :=
  let awards := enh.awards.getD "N/A"
  strContains awards "N/A" ∨
    ¬(strContains awards "Oscar" ∨ strContains awards "Emmy" ∨
      strContains awards "Golden Globe")

/-- The loop of `_filter_by_personality_pattern`, with the accumulated
result list and the break once it holds 15 movies. -/
def filterByPersonalityPatternAux
    (getEnh : Nat → Except String (Option Enhanced))
    (rules : PersonalityRules) :
    List Movie → List Movie → Except String (List Movie)
  | [], acc => .ok acc
  | movie :: rest, acc =>
    match getEnh movie.id with
    | .error e => .error e
    | .ok none => filterByPersonalityPatternAux getEnh rules rest acc
    | .ok (some enh) =>
      let r := enh.enhancedRatings
      if ¬(r.imdb > 0 ∧ r.rottenTomatoes > 0) then
        filterByPersonalityPatternAux getEnh rules rest acc
      else
        let gap := r.imdb - r.rottenTomatoes / 10
        if rules.rtCriticsMuchHigher ∧ gap ≥ -(rules.minGap.getD 1.5) then
          filterByPersonalityPatternAux getEnh rules rest acc
        else if rules.imdbMuchHigher ∧ gap ≤ rules.minGap.getD 1.5 then
          filterByPersonalityPatternAux getEnh rules rest acc
        else if qTruthy rules.imdbMin ∧ r.imdb < rules.imdbMin.getD 0 then
          filterByPersonalityPatternAux getEnh rules rest acc
        else if qTruthy rules.rtMin ∧ r.rottenTomatoes < rules.rtMin.getD 0 then
          filterByPersonalityPatternAux getEnh rules rest acc
        else if qTruthy rules.rtMax ∧ r.rottenTomatoes > rules.rtMax.getD 0 then
          filterByPersonalityPatternAux getEnh rules rest acc
        else if qTruthy rules.metacriticMin ∧
            r.metacritic < rules.metacriticMin.getD 0 then
          filterByPersonalityPatternAux getEnh rules rest acc
        else if rules.awardsRequired ∧ awardsCheckFails enh then
          filterByPersonalityPatternAux getEnh rules rest acc
        else
          let acc2 :=
            if qTruthy rules.imdbMin ∧ qTruthy rules.rtMin ∧
                qTruthy rules.metacriticMin then
              if r.imdb ≥ rules.imdbMin.getD 0 ∧
                  r.rottenTomatoes ≥ rules.rtMin.getD 0 ∧
                  r.metacritic ≥ rules.metacriticMin.getD 0 then
                acc ++ [movie]
              else acc
            else acc ++ [movie]
          if acc2.length ≥ 15 then .ok acc2
          else filterByPersonalityPatternAux getEnh rules rest acc2

/-- Embeds `_filter_by_personality_pattern`. -/
def filter_by_personality_pattern
    (getEnh : Nat → Except String (Option Enhanced))
    (movies : List Movie) (rules : PersonalityRules) :
    Except String (List Movie) :=
  filterByPersonalityPatternAux getEnh rules movies []

/-! ## Shared example values used by witnesses -/

/-- An enhanced record whose combined ratings are all the absent
sentinel 0, as `_combine_ratings` produces without provider data. -/
def enhAllZero : Enhanced :=
  { tmdb := {}
    omdbData := none
    enhancedRatings := { tmdb := 0, imdb := 0, rottenTomatoes := 0, metacritic := 0 }
    ratingAnalysis := "OMDb data not available"
    awards := none
    boxOffice := none
    detailedPlot := none }

/-! # Theorems -/

/-! ## C1 -/

/-- C1: the claim says malformed or absent numeric rating inputs
normalize to an absent field, never zero and never an exception. The
code disagrees at this concrete input: with `vote_average` missing and
`imdbRating` equal to N/A, `_combine_ratings` yields the number 0 for
both fields, and with an unparseable Rotten Tomatoes value it raises
ValueError. -/
theorem c1_absent_becomes_zero_and_malformed_raises :
    combine_ratings { voteAverage := none } (some { imdbRating := some "N/A" }) =
      .ok { tmdb := 0, imdb := 0, rottenTomatoes := 0, metacritic := 0 } ∧
    combine_ratings { voteAverage := none }
        (some { imdbRating := some "N/A",
                ratingEntries := [{ source := "Rotten Tomatoes", value := "N/A" }] }) =
      .error "ValueError: invalid literal for int()" := by
  constructor <;> rfl

/-! ## C2 -/

/-- C2: when either the audience (imdb) or the critic (Rotten Tomatoes)
field carries the absent sentinel 0, the per-title step of
`find_rating_mismatches` reports no mismatch: the positivity guard
rejects the pair before any gap is computed. -/
theorem c2_no_mismatch_from_missing_data (minMismatch : ℚ) (movie : Movie)
    (enh : Enhanced)
    (h : enh.enhancedRatings.imdb = 0 ∨ enh.enhancedRatings.rottenTomatoes = 0) :
    mismatchStep minMismatch movie enh = none := by
  unfold mismatchStep
  rcases h with h | h <;> simp [h]

/-- Witness for C2 at a concrete absent pair. -/
theorem c2_no_mismatch_from_missing_data_witness :
    (enhAllZero.enhancedRatings.imdb = 0 ∨
      enhAllZero.enhancedRatings.rottenTomatoes = 0) ∧
    mismatchStep 2 { id := 1 } enhAllZero = none :=
  ⟨Or.inl rfl, c2_no_mismatch_from_missing_data 2 { id := 1 } enhAllZero (Or.inl rfl)⟩

/-! ## C3 -/

/-- C3 counterexample: at audience 6.0 and critic percentage 95 the
analysis string is the single elif-chain label, which contains neither
of the labels the claim requires to be concatenated. -/
theorem c3_no_concatenated_labels :
    analyze_ratings { tmdb := 0, imdb := 6, rottenTomatoes := 95, metacritic := 0 } =
      "Critics love it more than audiences" ∧
    strContains
      (analyze_ratings { tmdb := 0, imdb := 6, rottenTomatoes := 95, metacritic := 0 })
      "critics favor it over audience" = false ∧
    strContains
      (analyze_ratings { tmdb := 0, imdb := 6, rottenTomatoes := 95, metacritic := 0 })
      "critics\x27 choice" = false := by
  have habs : |(6 : ℚ) - 95 / 10| = 7/2 := by
    rw [abs_of_nonpos (by norm_num)]
    norm_num
  have habs2 : |(7 : ℚ)/2| = 7/2 := abs_of_nonneg (by norm_num)
  have hval : analyze_ratings
      { tmdb := 0, imdb := 6, rottenTomatoes := 95, metacritic := 0 } =
      "Critics love it more than audiences" := by
    simp only [analyze_ratings]
    norm_num [habs, habs2]
  refine ⟨hval, ?_, ?_⟩ <;> rw [hval] <;> rfl

/-- C3 as amended: with both scores present the classifier returns
exactly one label from the if/elif chain, never a concatenation, and at
audience 6.0 with critic percentage 95 that label is the
critics-over-audiences gap label alone. -/
theorem c3_single_label_chain (r : Ratings) (h1 : 0 < r.imdb)
    (h2 : 0 < r.rottenTomatoes) :
    (analyze_ratings r = "Highly acclaimed (IMDb 8.5+)" ∨
     analyze_ratings r = "Audiences love it more than critics" ∨
     analyze_ratings r = "Critics love it more than audiences" ∨
     analyze_ratings r = "Critics and audiences generally agree") ∧
    (r.imdb < 8.5 → 1.5 ≤ |r.imdb - r.rottenTomatoes / 10| →
      r.imdb - r.rottenTomatoes / 10 < 0 →
      analyze_ratings r = "Critics love it more than audiences") := by
  have h0 : ¬¬(r.imdb ≠ 0 ∨ r.rottenTomatoes ≠ 0 ∨ r.metacritic ≠ 0) :=
    not_not_intro (Or.inl h1.ne')
  constructor
  · simp only [analyze_ratings]
    rw [if_neg h0]
    by_cases h85 : r.imdb ≥ 8.5
    · rw [if_pos h85]
      exact Or.inl rfl
    · rw [if_neg h85, if_pos ⟨h2, h1⟩]
      by_cases hgap : |r.imdb - r.rottenTomatoes / 10| ≥ 1.5
      · rw [if_pos hgap]
        by_cases hpos : r.imdb - r.rottenTomatoes / 10 > 0
        · rw [if_pos hpos]
          exact Or.inr (Or.inl rfl)
        · rw [if_neg hpos]
          exact Or.inr (Or.inr (Or.inl rfl))
      · rw [if_neg hgap]
        exact Or.inr (Or.inr (Or.inr rfl))
  · intro hlt hgap hneg
    simp only [analyze_ratings]
    rw [if_neg h0, if_neg (not_le.mpr hlt), if_pos ⟨h2, h1⟩, if_pos hgap,
      if_neg (not_lt.mpr hneg.le)]

/-- Witness for C3 as amended at the concrete scenario input. -/
theorem c3_single_label_chain_witness :
    ((0 : ℚ) < 6 ∧ (0 : ℚ) < 95) ∧
    (analyze_ratings { tmdb := 0, imdb := 6, rottenTomatoes := 95, metacritic := 0 } =
        "Highly acclaimed (IMDb 8.5+)" ∨
     analyze_ratings { tmdb := 0, imdb := 6, rottenTomatoes := 95, metacritic := 0 } =
        "Audiences love it more than critics" ∨
     analyze_ratings { tmdb := 0, imdb := 6, rottenTomatoes := 95, metacritic := 0 } =
        "Critics love it more than audiences" ∨
     analyze_ratings { tmdb := 0, imdb := 6, rottenTomatoes := 95, metacritic := 0 } =
        "Critics and audiences generally agree") :=
  ⟨⟨by norm_num, by norm_num⟩,
    (c3_single_label_chain
      { tmdb := 0, imdb := 6, rottenTomatoes := 95, metacritic := 0 }
      (by norm_num) (by norm_num)).1⟩

/-! ## C5 and C6 -/

/-- The enriched record `get_enhanced_movie_details` builds when the
TMDB lookup succeeds and no OMDb data is available: all combined
ratings except the TMDB one are the absent sentinel 0, and the
OMDb-sourced keys are unwritten. -/
def primaryOnlyEnhanced (t : TmdbData) : Enhanced :=
  { tmdb := t
    omdbData := none
    enhancedRatings :=
      { tmdb := t.voteAverage.getD 0, imdb := 0, rottenTomatoes := 0, metacritic := 0 }
    ratingAnalysis := analyze_ratings
      { tmdb := t.voteAverage.getD 0, imdb := 0, rottenTomatoes := 0, metacritic := 0 }
    awards := none
    boxOffice := none
    detailedPlot := none }

/-- Helper: when the TMDB lookup succeeds and the secondary lookup
resolves to no data, enrichment returns the primary-only record. -/
theorem get_enhanced_of_no_omdb (td : Nat → Option TmdbData)
    (ot : String → HttpResult) (movieId : Nat) (t : TmdbData)
    (hp : td movieId = some t)
    (homdb : (match t.imdbId with
      | some iid => if iid ≠ "" then make_omdb_request (ot iid) else none
      | none => none) = none) :
    get_enhanced_movie_details td ot movieId = .ok (some (primaryOnlyEnhanced t)) := by
  simp only [get_enhanced_movie_details, hp, homdb, combine_ratings]
  rfl

/-- Helper: enrichment yields the NotFound outcome exactly when the
primary lookup fails. -/
theorem get_enhanced_ok_none_iff (td : Nat → Option TmdbData)
    (ot : String → HttpResult) (j : Nat) :
    get_enhanced_movie_details td ot j = .ok none ↔ td j = none := by
  cases hj : td j with
  | none => simp [get_enhanced_movie_details, hj]
  | some t =>
    simp only [get_enhanced_movie_details, hj]
    rcases hcomb : combine_ratings t (match t.imdbId with
        | some iid => if iid ≠ "" then make_omdb_request (ot iid) else none
        | none => none) with e | r <;> simp

/-- C5: when the primary (TMDB) lookup succeeds, enrichment returns a
success result even though every secondary (OMDb) lookup fails: the
OMDb-sourced fields are unwritten in the returned record, and the
NotFound outcome arises exactly when the primary lookup itself fails. -/
theorem c5_partial_enrichment_is_success (td : Nat → Option TmdbData)
    (ot : String → HttpResult) (movieId : Nat) (t : TmdbData)
    (hp : td movieId = some t)
    (hsec : ∀ iid, make_omdb_request (ot iid) = none) :
    (get_enhanced_movie_details td ot movieId = .ok (some (primaryOnlyEnhanced t)) ∧
      (primaryOnlyEnhanced t).awards = none ∧
      (primaryOnlyEnhanced t).boxOffice = none ∧
      (primaryOnlyEnhanced t).detailedPlot = none) ∧
    (∀ j, get_enhanced_movie_details td ot j = .ok none ↔ td j = none) := by
  have homdb : (match t.imdbId with
      | some iid => if iid ≠ "" then make_omdb_request (ot iid) else none
      | none => none) = none := by
    cases t.imdbId with
    | none => rfl
    | some iid =>
      by_cases h : iid = "" <;> simp [h, hsec]
  exact ⟨⟨get_enhanced_of_no_omdb td ot movieId t hp homdb, rfl, rfl, rfl⟩,
    fun j => get_enhanced_ok_none_iff td ot j⟩

/-- Witness for C5 with an always-failing OMDb transport. -/
theorem c5_partial_enrichment_is_success_witness :
    ((fun (_ : Nat) => some ({} : TmdbData)) 0 = some {}) ∧
    make_omdb_request (.failure "boom") = none ∧
    get_enhanced_movie_details (fun _ => some {}) (fun _ => .failure "boom") 0 =
      .ok (some (primaryOnlyEnhanced {})) :=
  ⟨rfl, rfl,
    ((c5_partial_enrichment_is_success (fun _ => some {})
      (fun _ => .failure "boom") 0 {} rfl (fun _ => rfl)).1).1⟩

/-- C6 counterexample: for a primary record with no imdb id, the
orchestrator issues no secondary-provider request at all: in particular
no title-plus-year fallback lookup is performed. -/
theorem c6_no_fallback_query_issued :
    omdbQueriesMade (fun _ => some { title := "Fargo" }) 7 = [] ∧
    (omdbQueriesMade (fun _ => some { title := "Fargo" }) 7).any
      (fun q => match q with
        | .byTitleYear _ _ => true
        | _ => false) = false :=
  ⟨rfl, rfl⟩

/-- C6 as amended: when the primary record lacks a cross-provider
identifier, `get_enhanced_movie_details` performs no secondary lookup
of any kind and proceeds with primary-only data. -/
theorem c6_missing_imdb_id_skips_secondary (td : Nat → Option TmdbData)
    (movieId : Nat) (t : TmdbData) (hp : td movieId = some t)
    (hno : t.imdbId = none) :
    omdbQueriesMade td movieId = [] ∧
    ∀ ot : String → HttpResult,
      get_enhanced_movie_details td ot movieId = .ok (some (primaryOnlyEnhanced t)) := by
  constructor
  · simp [omdbQueriesMade, hp, hno]
  · intro ot
    exact get_enhanced_of_no_omdb td ot movieId t hp (by rw [hno])

/-- Witness for C6 as amended. -/
theorem c6_missing_imdb_id_skips_secondary_witness :
    ((fun (_ : Nat) => some ({ title := "Fargo" } : TmdbData)) 7 =
      some { title := "Fargo" }) ∧
    (({ title := "Fargo" } : TmdbData).imdbId = none) ∧
    omdbQueriesMade (fun _ => some { title := "Fargo" }) 7 = [] :=
  ⟨rfl, rfl,
    (c6_missing_imdb_id_skips_secondary (fun _ => some { title := "Fargo" }) 7
      { title := "Fargo" } rfl rfl).1⟩

/-! ## C7 -/

/-- C7 counterexample: the provider explicit false-response flag and a
transport failure produce the identical outcome None, so a caller
cannot observe which of the two occurred. -/
theorem c7_outcomes_indistinguishable :
    make_omdb_request (.success { response := some "False" }) =
      make_omdb_request (.failure "connection error") ∧
    make_omdb_request (.failure "connection error") = none := ⟨rfl, rfl⟩

/-- C7 as amended: both the explicit false-response convention and
transport failure collapse to the same None outcome of
`_make_omdb_request`; no NotFound-versus-Unreachable distinction is
surfaced. -/
theorem c7_both_map_to_none (payload : OmdbPayload) (msg : String)
    (h : payload.response = some "False") :
    make_omdb_request (.success payload) = none ∧
    make_omdb_request (.failure msg) = none := by
  refine ⟨?_, rfl⟩
  simp [make_omdb_request, h]

/-- Witness for C7 as amended. -/
theorem c7_both_map_to_none_witness :
    (({ response := some "False" } : OmdbPayload).response = some "False") ∧
    make_omdb_request (.success { response := some "False" }) = none ∧
    make_omdb_request (.failure "connection error") = none :=
  ⟨rfl, c7_both_map_to_none { response := some "False" } "connection error" rfl⟩

/-! ## C8 -/

/-- The constraints every movie kept by `_filter_by_personality_pattern`
satisfies: positive imdb and Rotten Tomatoes data, and every present
min or max constraint on a normalized rating field. -/
def personalityKept (getEnh : Nat → Except String (Option Enhanced))
    (rules : PersonalityRules) (m : Movie) : Prop :=
  ∃ enh, getEnh m.id = .ok (some enh) ∧
    0 < enh.enhancedRatings.imdb ∧
    0 < enh.enhancedRatings.rottenTomatoes ∧
    (qTruthy rules.imdbMin = true →
      rules.imdbMin.getD 0 ≤ enh.enhancedRatings.imdb) ∧
    (qTruthy rules.rtMin = true →
      rules.rtMin.getD 0 ≤ enh.enhancedRatings.rottenTomatoes) ∧
    (qTruthy rules.rtMax = true →
      enh.enhancedRatings.rottenTomatoes ≤ rules.rtMax.getD 0) ∧
    (qTruthy rules.metacriticMin = true →
      rules.metacriticMin.getD 0 ≤ enh.enhancedRatings.metacritic)

/-- The constraint every movie kept by `_filter_by_advanced_criteria`
satisfies for its metacritic minimum. -/
def advancedKept (getEnh : Nat → Except String (Option Enhanced))
    (criteria : AdvancedCriteria) (m : Movie) : Prop :=
  ∃ enh, getEnh m.id = .ok (some enh) ∧
    (qTruthy criteria.metacriticMin = true →
      criteria.metacriticMin.getD 0 ≤ enh.enhancedRatings.metacritic)

/-- Helper: loop invariant of the personality filter. -/
theorem personalityAux_kept (getEnh : Nat → Except String (Option Enhanced))
    (rules : PersonalityRules) :
    ∀ (movies acc out : _),
      filterByPersonalityPatternAux getEnh rules movies acc = .ok out →
      ∀ m ∈ out, m ∈ acc ∨ personalityKept getEnh rules m := by
  intro movies
  induction movies with
  | nil =>
    intro acc out h m hm
    simp only [filterByPersonalityPatternAux] at h
    cases h
    exact Or.inl hm
  | cons movie rest ih =>
    intro acc out h m hm
    rw [filterByPersonalityPatternAux] at h
    rcases hg : getEnh movie.id with e | o
    · rw [hg] at h
      cases h
    rw [hg] at h
    rcases o with _ | enh
    · exact ih acc out h m hm
    simp only at h
    by_cases h0 : ¬(enh.enhancedRatings.imdb > 0 ∧ enh.enhancedRatings.rottenTomatoes > 0)
    · rw [if_pos h0] at h
      exact ih acc out h m hm
    rw [if_neg h0] at h
    push_neg at h0
    by_cases h1 : rules.rtCriticsMuchHigher = true ∧
        enh.enhancedRatings.imdb - enh.enhancedRatings.rottenTomatoes / 10 ≥
          -(rules.minGap.getD 1.5)
    · rw [if_pos h1] at h
      exact ih acc out h m hm
    rw [if_neg h1] at h
    by_cases h2 : rules.imdbMuchHigher = true ∧
        enh.enhancedRatings.imdb - enh.enhancedRatings.rottenTomatoes / 10 ≤
          rules.minGap.getD 1.5
    · rw [if_pos h2] at h
      exact ih acc out h m hm
    rw [if_neg h2] at h
    by_cases h3 : qTruthy rules.imdbMin = true ∧
        enh.enhancedRatings.imdb < rules.imdbMin.getD 0
    · rw [if_pos h3] at h
      exact ih acc out h m hm
    rw [if_neg h3] at h
    by_cases h4 : qTruthy rules.rtMin = true ∧
        enh.enhancedRatings.rottenTomatoes < rules.rtMin.getD 0
    · rw [if_pos h4] at h
      exact ih acc out h m hm
    rw [if_neg h4] at h
    by_cases h5 : qTruthy rules.rtMax = true ∧
        enh.enhancedRatings.rottenTomatoes > rules.rtMax.getD 0
    · rw [if_pos h5] at h
      exact ih acc out h m hm
    rw [if_neg h5] at h
    by_cases h6 : qTruthy rules.metacriticMin = true ∧
        enh.enhancedRatings.metacritic < rules.metacriticMin.getD 0
    · rw [if_pos h6] at h
      exact ih acc out h m hm
    rw [if_neg h6] at h
    by_cases h7 : rules.awardsRequired = true ∧ awardsCheckFails enh = true
    · rw [if_pos h7] at h
      exact ih acc out h m hm
    rw [if_neg h7] at h
    have hkept : personalityKept getEnh rules movie := by
      refine ⟨enh, hg, h0.1, h0.2, ?_, ?_, ?_, ?_⟩
      · exact fun ht => le_of_not_lt (fun hlt => h3 ⟨ht, hlt⟩)
      · exact fun ht => le_of_not_lt (fun hlt => h4 ⟨ht, hlt⟩)
      · exact fun ht => le_of_not_lt (fun hlt => h5 ⟨ht, hlt⟩)
      · exact fun ht => le_of_not_lt (fun hlt => h6 ⟨ht, hlt⟩)
    have hstep : ∀ acc2 : List Movie,
        (acc2 = acc ++ [movie] ∨ acc2 = acc) →
        (if acc2.length ≥ 15 then Except.ok acc2
          else filterByPersonalityPatternAux getEnh rules rest acc2) = .ok out →
        m ∈ acc ∨ personalityKept getEnh rules m := by
      intro acc2 hacc2 hh
      have hmem : m ∈ acc2 → m ∈ acc ∨ personalityKept getEnh rules m := by
        intro hm2
        rcases hacc2 with h' | h' <;> subst h'
        · rcases List.mem_append.mp hm2 with h' | h'
          · exact Or.inl h'
          · rw [List.mem_singleton.mp h']
            exact Or.inr hkept
        · exact Or.inl hm2
      by_cases hlen : acc2.length ≥ 15
      · rw [if_pos hlen] at hh
        cases hh
        exact hmem hm
      · rw [if_neg hlen] at hh
        rcases ih acc2 out hh m hm with h' | h'
        · exact hmem h'
        · exact Or.inr h'
    by_cases h8 : qTruthy rules.imdbMin = true ∧ qTruthy rules.rtMin = true ∧
        qTruthy rules.metacriticMin = true
    · rw [if_pos h8] at h
      by_cases h9 : enh.enhancedRatings.imdb ≥ rules.imdbMin.getD 0 ∧
          enh.enhancedRatings.rottenTomatoes ≥ rules.rtMin.getD 0 ∧
          enh.enhancedRatings.metacritic ≥ rules.metacriticMin.getD 0
      · rw [if_pos h9] at h
        exact hstep _ (Or.inl rfl) h
      · rw [if_neg h9] at h
        exact hstep _ (Or.inr rfl) h
    · rw [if_neg h8] at h
      exact hstep _ (Or.inl rfl) h

/-- Helper: loop invariant of the advanced-criteria filter. -/
theorem advancedAux_kept (getEnh : Nat → Except String (Option Enhanced))
    (criteria : AdvancedCriteria) :
    ∀ (movies acc out : _),
      filterByAdvancedCriteriaAux getEnh criteria movies acc = .ok out →
      ∀ m ∈ out, m ∈ acc ∨ advancedKept getEnh criteria m := by
  intro movies
  induction movies with
  | nil =>
    intro acc out h m hm
    simp only [filterByAdvancedCriteriaAux] at h
    cases h
    exact Or.inl hm
  | cons movie rest ih =>
    intro acc out h m hm
    rw [filterByAdvancedCriteriaAux] at h
    rcases hg : getEnh movie.id with e | o
    · rw [hg] at h
      cases h
    rw [hg] at h
    rcases o with _ | enh
    · exact ih acc out h m hm
    simp only at h
    by_cases h1 : criteria.imdbAudiencePreference = true ∧
        enh.enhancedRatings.rottenTomatoes > 0 ∧
        enh.enhancedRatings.imdb < enh.enhancedRatings.rottenTomatoes / 10
    · rw [if_pos h1] at h
      exact ih acc out h m hm
    rw [if_neg h1] at h
    by_cases h2 : criteria.rtCriticsPreference = true ∧
        enh.enhancedRatings.rottenTomatoes > 0 ∧
        enh.enhancedRatings.imdb ≥ enh.enhancedRatings.rottenTomatoes / 10
    · rw [if_pos h2] at h
      exact ih acc out h m hm
    rw [if_neg h2] at h
    by_cases h3 : qTruthy criteria.rtImdbGapMax = true ∧
        enh.enhancedRatings.rottenTomatoes > 0 ∧
        |enh.enhancedRatings.imdb - enh.enhancedRatings.rottenTomatoes / 10| >
          criteria.rtImdbGapMax.getD 0
    · rw [if_pos h3] at h
      exact ih acc out h m hm
    rw [if_neg h3] at h
    by_cases h4 : qTruthy criteria.metacriticMin = true ∧
        enh.enhancedRatings.metacritic < criteria.metacriticMin.getD 0
    · rw [if_pos h4] at h
      exact ih acc out h m hm
    rw [if_neg h4] at h
    have hkept : advancedKept getEnh criteria movie :=
      ⟨enh, hg, fun ht => le_of_not_lt (fun hlt => h4 ⟨ht, hlt⟩)⟩
    by_cases hlen : (acc ++ [movie]).length ≥ 10
    · rw [if_pos hlen] at h
      cases h
      rcases List.mem_append.mp hm with h' | h'
      · exact Or.inl h'
      · rw [List.mem_singleton.mp h']
        exact Or.inr hkept
    · rw [if_neg hlen] at h
      rcases ih (acc ++ [movie]) out h m hm with h' | h'
      · rcases List.mem_append.mp h' with h'' | h''
        · exact Or.inl h''
        · rw [List.mem_singleton.mp h'']
          exact Or.inr hkept
      · exact Or.inr h'

/-- C8: in both rating-rule filters, a present min or max constraint on
a normalized field is a real numeric bound on every returned title, so a
title whose field carries the absent sentinel 0 fails every positive
min constraint and is never returned; absent imdb or Rotten Tomatoes
data is likewise never returned by the personality filter. -/
theorem c8_absent_field_fails_constraint
    (getEnh : Nat → Except String (Option Enhanced)) (movies : List Movie)
    (rules : PersonalityRules) (criteria : AdvancedCriteria)
    (outP outA : List Movie)
    (hP : filter_by_personality_pattern getEnh movies rules = .ok outP)
    (hA : filter_by_advanced_criteria getEnh movies criteria = .ok outA) :
    (∀ m ∈ outP, personalityKept getEnh rules m) ∧
    (∀ m ∈ outA, advancedKept getEnh criteria m) ∧
    (∀ m enh, getEnh m.id = .ok (some enh) →
      (enh.enhancedRatings.imdb = 0 ∨ enh.enhancedRatings.rottenTomatoes = 0 ∨
        (enh.enhancedRatings.metacritic = 0 ∧ qTruthy rules.metacriticMin = true ∧
          0 < rules.metacriticMin.getD 0)) →
      m ∉ outP) ∧
    (∀ m enh, getEnh m.id = .ok (some enh) →
      enh.enhancedRatings.metacritic = 0 → qTruthy criteria.metacriticMin = true →
      0 < criteria.metacriticMin.getD 0 →
      m ∉ outA) := by
  have hPk : ∀ m ∈ outP, personalityKept getEnh rules m := by
    intro m hm
    rcases personalityAux_kept getEnh rules movies [] outP hP m hm with h' | h'
    · cases h'
    · exact h'
  have hAk : ∀ m ∈ outA, advancedKept getEnh criteria m := by
    intro m hm
    rcases advancedAux_kept getEnh criteria movies [] outA hA m hm with h' | h'
    · cases h'
    · exact h'
  refine ⟨hPk, hAk, ?_, ?_⟩
  · intro m enh hg habs hm
    obtain ⟨enh', hg', him, hrt, _, _, _, hmc⟩ := hPk m hm
    rw [hg] at hg'
    cases hg'
    rcases habs with h' | h' | ⟨h0, ht, hpos⟩
    · rw [h'] at him
      exact lt_irrefl _ him
    · rw [h'] at hrt
      exact lt_irrefl _ hrt
    · have := hmc ht
      rw [h0] at this
      exact absurd hpos (not_lt.mpr this)
  · intro m enh hg h0 ht hpos hm
    obtain ⟨enh', hg', hmc⟩ := hAk m hm
    rw [hg] at hg'
    cases hg'
    have := hmc ht
    rw [h0] at this
    exact absurd hpos (not_lt.mpr this)

/-- Witness for C8: a title whose metacritic field is the absent
sentinel is excluded by both filters under a metacritic-min rule. -/
theorem c8_absent_field_fails_constraint_witness :
    filter_by_personality_pattern (fun _ => .ok (some enhAllZero)) [{ id := 0 }]
      { metacriticMin := some 70 } = .ok [] ∧
    filter_by_advanced_criteria (fun _ => .ok (some enhAllZero)) [{ id := 0 }]
      { metacriticMin := some 70 } = .ok [] ∧
    (({ id := 0 } : Movie) ∈ ([] : List Movie)) = False := by
  have hP : filter_by_personality_pattern (fun _ => .ok (some enhAllZero))
      [{ id := 0 }] { metacriticMin := some 70 } = .ok [] := by
    norm_num [filter_by_personality_pattern, filterByPersonalityPatternAux, enhAllZero]
  have hA : filter_by_advanced_criteria (fun _ => .ok (some enhAllZero))
      [{ id := 0 }] { metacriticMin := some 70 } = .ok [] := by
    norm_num [filter_by_advanced_criteria, filterByAdvancedCriteriaAux, enhAllZero,
      qTruthy]
  refine ⟨hP, hA, ?_⟩
  exact eq_false ((c8_absent_field_fails_constraint (fun _ => .ok (some enhAllZero))
    [{ id := 0 }] { metacriticMin := some 70 } { metacriticMin := some 70 } [] []
    hP hA).2.2.2 { id := 0 } enhAllZero rfl rfl (by norm_num [qTruthy])
    (by norm_num))

/-! ## C9 -/

/-- C9: the mood profile classifier returns a single result and its
awards rule takes precedence over every genre and metacritic rule: for
any genre set and ratings, an awards text that passes the award check
yields one of the two awards-based profiles, decided only by the imdb
threshold. -/
theorem c9_awards_rules_take_precedence (r : Ratings) (genres : List String)
    (awards : String) (hna : strContains awards "N/A" = false)
    (haw : strContains awards "Oscar" = true ∨ strContains awards "Emmy" = true) :
    (determine_mood_profile r genres awards = "Prestige entertainment" ∨
     determine_mood_profile r genres awards = "Acclaimed but challenging") ∧
    (7.5 ≤ r.imdb →
      determine_mood_profile r genres awards = "Prestige entertainment") ∧
    (r.imdb < 7.5 →
      determine_mood_profile r genres awards = "Acclaimed but challenging") := by
  have hcond : ¬ strContains awards "N/A" = true ∧
      (strContains awards "Oscar" = true ∨ strContains awards "Emmy" = true) :=
    ⟨by simp [hna], haw⟩
  unfold determine_mood_profile
  rw [if_pos hcond]
  refine ⟨?_, ?_, ?_⟩
  · by_cases h : r.imdb ≥ 7.5
    · rw [if_pos h]; exact Or.inl rfl
    · rw [if_neg h]; exact Or.inr rfl
  · intro h; rw [if_pos h]
  · intro h; rw [if_neg (not_le.mpr h)]

/-- Witness for C9: a title that satisfies both the awards rule and the
Comedy genre rule receives the awards-based profile. -/
theorem c9_awards_rules_take_precedence_witness :
    (strContains "Won 2 Oscars" "N/A" = false) ∧
    (strContains "Won 2 Oscars" "Oscar" = true) ∧
    (determine_mood_profile { tmdb := 0, imdb := 8, rottenTomatoes := 0, metacritic := 0 }
        ["Comedy"] "Won 2 Oscars" = "Prestige entertainment" ∨
     determine_mood_profile { tmdb := 0, imdb := 8, rottenTomatoes := 0, metacritic := 0 }
        ["Comedy"] "Won 2 Oscars" = "Acclaimed but challenging") :=
  ⟨rfl, rfl,
    (c9_awards_rules_take_precedence
      { tmdb := 0, imdb := 8, rottenTomatoes := 0, metacritic := 0 }
      ["Comedy"] "Won 2 Oscars" rfl (Or.inl rfl)).1⟩

/-! ## C4 -/

/-- The raw gap magnitude of a mismatch entry, recomputed from its
stored audience score and critic percentage. -/
def gapMagnitude (m : Mismatch) : ℚ := |m.imdbRating - m.rottenTomatoes / 10|

/-- Helper: a produced mismatch entry records a raw gap at least the
threshold, and its stored degree is that gap rounded to one decimal. -/
theorem mismatchStep_spec (minMismatch : ℚ) (movie : Movie) (enh : Enhanced)
    (m : Mismatch) (h : mismatchStep minMismatch movie enh = some m) :
    minMismatch ≤ gapMagnitude m ∧
      m.mismatchDegree = pyRound1 (gapMagnitude m) := by
  unfold mismatchStep at h
  by_cases h1 : enh.enhancedRatings.imdb > 0 ∧ enh.enhancedRatings.rottenTomatoes > 0
  · rw [if_pos h1] at h
    by_cases h2 : |enh.enhancedRatings.imdb - enh.enhancedRatings.rottenTomatoes / 10| ≥
        minMismatch
    · rw [if_pos h2] at h
      cases h
      exact ⟨h2, rfl⟩
    · rw [if_neg h2] at h
      cases h
  · rw [if_neg h1] at h
    cases h

/-- Helper: loop invariant of the mismatch-collection loop. -/
theorem mismatchCandidatesAux_spec (tmdbDetails : Nat → Option TmdbData)
    (omdbTransport : String → HttpResult) (minMismatch : ℚ) :
    ∀ (movies : List Movie) (acc out : List Mismatch),
      mismatchCandidatesAux tmdbDetails omdbTransport minMismatch movies acc = .ok out →
      (∀ x ∈ acc, minMismatch ≤ gapMagnitude x ∧
        x.mismatchDegree = pyRound1 (gapMagnitude x)) →
      ∀ x ∈ out, minMismatch ≤ gapMagnitude x ∧
        x.mismatchDegree = pyRound1 (gapMagnitude x) := by
  intro movies
  induction movies with
  | nil =>
    intro acc out h hacc x hx
    simp only [mismatchCandidatesAux] at h
    cases h
    exact hacc x hx
  | cons movie rest ih =>
    intro acc out h hacc x hx
    rw [mismatchCandidatesAux] at h
    rcases hg : get_enhanced_movie_details tmdbDetails omdbTransport movie.id
        with e | o
    · rw [hg] at h
      cases h
    rw [hg] at h
    rcases o with _ | enh
    · exact ih acc out h hacc x hx
    simp only at h
    rcases hs : mismatchStep minMismatch movie enh with _ | mnew
    · rw [hs] at h
      exact ih acc out h hacc x hx
    · rw [hs] at h
      refine ih (acc ++ [mnew]) out h ?_ x hx
      intro y hy
      rcases List.mem_append.mp hy with h' | h'
      · exact hacc y h'
      · rw [List.mem_singleton.mp h']
        exact mismatchStep_spec minMismatch movie enh mnew hs

/-- Helper: the sort relation is transitive and total. -/
theorem mismatchLE_trans_total :
    (∀ a b c : Mismatch, mismatchLE a b = true → mismatchLE b c = true →
      mismatchLE a c = true) ∧
    (∀ a b : Mismatch, (mismatchLE a b || mismatchLE b a) = true) := by
  constructor
  · intro a b c
    simp only [mismatchLE, decide_eq_true_eq]
    exact fun h1 h2 => h2.trans h1
  · intro a b
    simp only [mismatchLE, Bool.or_eq_true, decide_eq_true_eq]
    exact le_total _ _

/-- C4 as amended: every returned entry has a raw gap of at least
`min_gap` and stores that gap rounded to one decimal as its degree; the
list is sorted descending by the stored (rounded) degree, and entries
of equal stored degree keep the provider-returned candidate order (the
sort is stable). -/
theorem c4_sorted_by_rounded_degree (searchResults : Option (List Movie))
    (tmdbDetails : Nat → Option TmdbData)
    (omdbTransport : String → HttpResult) (minMismatch : ℚ)
    (pre out : List Mismatch)
    (hpre : mismatchCandidates searchResults tmdbDetails omdbTransport minMismatch =
      .ok pre)
    (hout : find_rating_mismatches searchResults tmdbDetails omdbTransport
      minMismatch = .ok out) :
    (∀ m ∈ out, minMismatch ≤ gapMagnitude m ∧
      m.mismatchDegree = pyRound1 (gapMagnitude m)) ∧
    out.Pairwise (fun a b => b.mismatchDegree ≤ a.mismatchDegree) ∧
    (∀ d : ℚ, out.filter (fun m => m.mismatchDegree == d) =
      pre.filter (fun m => m.mismatchDegree == d)) := by
  obtain ⟨htrans, htotal⟩ := mismatchLE_trans_total
  have hre : out = pre.mergeSort mismatchLE := by
    unfold find_rating_mismatches at hout
    rw [hpre] at hout
    cases hout
    rfl
  have hmem : ∀ m ∈ pre, minMismatch ≤ gapMagnitude m ∧
      m.mismatchDegree = pyRound1 (gapMagnitude m) := by
    unfold mismatchCandidates at hpre
    rcases searchResults with _ | movies
    · cases hpre
      intro m hm
      cases hm
    · exact mismatchCandidatesAux_spec tmdbDetails omdbTransport minMismatch
        (movies.take 10) [] pre hpre (by intro x hx; cases hx)
  refine ⟨?_, ?_, ?_⟩
  · intro m hm
    rw [hre, List.mem_mergeSort] at hm
    exact hmem m hm
  · rw [hre]
    exact (List.sorted_mergeSort htrans htotal pre).imp
      (fun h => by simpa [mismatchLE] using h)
  · intro d
    have hfilter_pairwise : (pre.filter (fun m => m.mismatchDegree == d)).Pairwise
        (fun a b => mismatchLE a b = true) := by
      apply List.pairwise_of_forall_mem_list
      intro a ha b hb
      have hda : a.mismatchDegree = d := by
        simpa using (List.mem_filter.mp ha).2
      have hdb : b.mismatchDegree = d := by
        simpa using (List.mem_filter.mp hb).2
      simp [mismatchLE, hda, hdb]
    have hsub : List.Sublist (pre.filter (fun m => m.mismatchDegree == d)) out :=
      hre ▸ List.sublist_mergeSort htrans htotal hfilter_pairwise
        (List.filter_sublist pre)
    have hself : (pre.filter (fun m => m.mismatchDegree == d)).filter
        (fun m => m.mismatchDegree == d) =
        pre.filter (fun m => m.mismatchDegree == d) :=
      List.filter_eq_self.mpr (fun a ha => (List.mem_filter.mp ha).2)
    have h1 : List.Sublist (pre.filter (fun m => m.mismatchDegree == d))
        (out.filter (fun m => m.mismatchDegree == d)) := by
      have := List.Sublist.filter (fun m => m.mismatchDegree == d) hsub
      rwa [hself] at this
    have hperm : List.Perm out pre := hre ▸ List.mergeSort_perm pre mismatchLE
    have hlen : (out.filter (fun m => m.mismatchDegree == d)).length =
        (pre.filter (fun m => m.mismatchDegree == d)).length :=
      (hperm.filter (fun m => m.mismatchDegree == d)).length_eq
    exact (h1.eq_of_length hlen.symm).symm

/-- Helper: evaluation of the one-decimal rounding when the scaled
value sits strictly below the halfway point. -/
theorem pyRound1_of_fract_lt_half (q : ℚ) (z : ℤ) (hz1 : (z : ℚ) ≤ q * 10)
    (hz2 : q * 10 < z + 1) (hz3 : q * 10 - z < 1/2) :
    pyRound1 q = (z : ℚ) / 10 := by
  have hf : ratFloor (q * 10) = z := by
    rw [ratFloor]
    exact Int.floor_eq_iff.mpr ⟨hz1, hz2⟩
  simp only [pyRound1, roundHalfEven]
  rw [hf, if_pos hz3]

/-- Helper: evaluation of `mismatchStep` at an entry whose raw gap is
the nonnegative value `g` and whose rounded degree is `z/10`. -/
theorem mismatchStep_eval (minMismatch : ℚ) (movie : Movie) (enh : Enhanced)
    (g : ℚ)
    (hg : enh.enhancedRatings.imdb - enh.enhancedRatings.rottenTomatoes / 10 = g)
    (hie : enh.enhancedRatings.imdb > 0)
    (hrt : enh.enhancedRatings.rottenTomatoes > 0)
    (habs : |g| = g) (hmin : g ≥ minMismatch) (z : ℤ)
    (hz1 : (z : ℚ) ≤ g * 10) (hz2 : g * 10 < z + 1) (hz3 : g * 10 - z < 1/2) :
    mismatchStep minMismatch movie enh = some
      { title := movie.title
        year := movieYear movie
        imdbRating := enh.enhancedRatings.imdb
        rottenTomatoes := enh.enhancedRatings.rottenTomatoes
        mismatchDegree := (z : ℚ) / 10
        analysis := enh.ratingAnalysis } := by
  simp only [mismatchStep]
  rw [hg, habs, if_pos ⟨hie, hrt⟩, if_pos hmin,
    pyRound1_of_fract_lt_half g z hz1 hz2 hz3]

/-- The TMDB details oracle of the C4 counterexample scenario. -/
def tdC4 : Nat → Option TmdbData := fun i =>
  if i = 1 then some { title := "A", imdbId := some "tt1" }
  else some { title := "B", imdbId := some "tt2" }

/-- The OMDb transport oracle of the C4 counterexample scenario: two
titles sharing the critic percentage 68 with imdb ratings 9.02 and
9.04, so the raw gaps 2.22 and 2.24 differ but round to the same
degree 2.2. -/
def otC4 : String → HttpResult := fun iid =>
  if iid = "tt1" then
    .success { imdbRating := some "9.02",
               ratingEntries := [{ source := "Rotten Tomatoes", value := "68%" }] }
  else
    .success { imdbRating := some "9.04",
               ratingEntries := [{ source := "Rotten Tomatoes", value := "68%" }] }

/-- The combined ratings of the first counterexample title, in the cast
form `_combine_ratings` produces. -/
def rC4a : Ratings :=
  { tmdb := 0, imdb := ((9 : ℕ) : ℚ) + ((2 : ℕ) : ℚ) / 10 ^ 2
    rottenTomatoes := (((68 : ℕ) : ℤ) : ℚ), metacritic := 0 }

/-- The combined ratings of the second counterexample title. -/
def rC4b : Ratings :=
  { tmdb := 0, imdb := ((9 : ℕ) : ℚ) + ((4 : ℕ) : ℚ) / 10 ^ 2
    rottenTomatoes := (((68 : ℕ) : ℤ) : ℚ), metacritic := 0 }

/-- The enhanced record of the first counterexample title. -/
def enhC4a : Enhanced :=
  { tmdb := { title := "A", imdbId := some "tt1" },
    omdbData := some { imdbRating := some "9.02",
                       ratingEntries := [{ source := "Rotten Tomatoes", value := "68%" }] },
    enhancedRatings := rC4a,
    ratingAnalysis := analyze_ratings rC4a,
    awards := some "N/A", boxOffice := some "N/A", detailedPlot := some "N/A" }

/-- The enhanced record of the second counterexample title. -/
def enhC4b : Enhanced :=
  { tmdb := { title := "B", imdbId := some "tt2" },
    omdbData := some { imdbRating := some "9.04",
                       ratingEntries := [{ source := "Rotten Tomatoes", value := "68%" }] },
    enhancedRatings := rC4b,
    ratingAnalysis := analyze_ratings rC4b,
    awards := some "N/A", boxOffice := some "N/A", detailedPlot := some "N/A" }

/-- The first mismatch entry of the counterexample output. -/
def e1C4 : Mismatch :=
  { title := "A", year := "", imdbRating := 451/50, rottenTomatoes := 68
    mismatchDegree := 11/5, analysis := analyze_ratings rC4a }

/-- The second mismatch entry of the counterexample output. -/
def e2C4 : Mismatch :=
  { title := "B", year := "", imdbRating := 226/25, rottenTomatoes := 68
    mismatchDegree := 11/5, analysis := analyze_ratings rC4b }

/-- C4 counterexample: at this concrete query the returned list is
ordered by the rounded degree, and since both raw gaps 2.22 and 2.24
round to 2.2, the entry with the smaller raw gap magnitude comes first:
the list is not sorted by gap magnitude (the absolute audience-critic
difference) descending. -/
theorem c4_not_sorted_by_raw_gap :
    find_rating_mismatches
        (some [{ id := 1, title := "A" }, { id := 2, title := "B" }]) tdC4 otC4 2 =
      .ok [e1C4, e2C4] ∧
    gapMagnitude e1C4 < gapMagnitude e2C4 := by
  have habs1 : |(111/50 : ℚ)| = 111/50 := abs_of_nonneg (by norm_num)
  have habs2 : |(56/25 : ℚ)| = 56/25 := abs_of_nonneg (by norm_num)
  have hstep1 := mismatchStep_eval 2 { id := 1, title := "A" } enhC4a (111/50)
    (by simp only [enhC4a, rC4a]; push_cast; norm_num)
    (by simp only [enhC4a, rC4a]; push_cast; norm_num)
    (by simp only [enhC4a, rC4a]; push_cast; norm_num)
    habs1 (by norm_num) 22 (by norm_num) (by norm_num) (by norm_num)
  have hstep2 := mismatchStep_eval 2 { id := 2, title := "B" } enhC4b (56/25)
    (by simp only [enhC4b, rC4b]; push_cast; norm_num)
    (by simp only [enhC4b, rC4b]; push_cast; norm_num)
    (by simp only [enhC4b, rC4b]; push_cast; norm_num)
    habs2 (by norm_num) 22 (by norm_num) (by norm_num) (by norm_num)
  have hrec1 :
      ({ title := ({ id := 1, title := "A" } : Movie).title,
         year := movieYear { id := 1, title := "A" },
         imdbRating := enhC4a.enhancedRatings.imdb,
         rottenTomatoes := enhC4a.enhancedRatings.rottenTomatoes,
         mismatchDegree := ((22 : ℤ) : ℚ) / 10,
         analysis := enhC4a.ratingAnalysis } : Mismatch) = e1C4 := by
    simp only [enhC4a, rC4a, e1C4, movieYear, strTruthy, Mismatch.mk.injEq]
    norm_num
  have hrec2 :
      ({ title := ({ id := 2, title := "B" } : Movie).title,
         year := movieYear { id := 2, title := "B" },
         imdbRating := enhC4b.enhancedRatings.imdb,
         rottenTomatoes := enhC4b.enhancedRatings.rottenTomatoes,
         mismatchDegree := ((22 : ℤ) : ℚ) / 10,
         analysis := enhC4b.ratingAnalysis } : Mismatch) = e2C4 := by
    simp only [enhC4b, rC4b, e2C4, movieYear, strTruthy, Mismatch.mk.injEq]
    norm_num
  rw [hrec1] at hstep1
  rw [hrec2] at hstep2
  have hpre : mismatchCandidates
      (some [{ id := 1, title := "A" }, { id := 2, title := "B" }]) tdC4 otC4 2 =
      .ok [e1C4, e2C4] := by
    show (match mismatchStep 2 { id := 1, title := "A" } enhC4a with
      | some m => mismatchCandidatesAux tdC4 otC4 2 [{ id := 2, title := "B" }]
          ([] ++ [m])
      | none => mismatchCandidatesAux tdC4 otC4 2 [{ id := 2, title := "B" }] []) =
      .ok [e1C4, e2C4]
    rw [hstep1]
    show (match mismatchStep 2 { id := 2, title := "B" } enhC4b with
      | some m => mismatchCandidatesAux tdC4 otC4 2 [] (([] ++ [e1C4]) ++ [m])
      | none => mismatchCandidatesAux tdC4 otC4 2 [] ([] ++ [e1C4])) =
      .ok [e1C4, e2C4]
    rw [hstep2]
    rfl
  have hsort : List.mergeSort [e1C4, e2C4] mismatchLE = [e1C4, e2C4] := by
    apply List.mergeSort_of_sorted
    refine List.pairwise_cons.mpr ⟨?_, List.pairwise_singleton _ _⟩
    intro b hb
    rw [List.mem_singleton.mp hb]
    simp [mismatchLE, e1C4, e2C4]
  constructor
  · unfold find_rating_mismatches
    rw [hpre]
    show Except.ok (List.mergeSort [e1C4, e2C4] mismatchLE) = .ok [e1C4, e2C4]
    rw [hsort]
  · simp only [gapMagnitude, e1C4, e2C4]
    have h1 : (451/50 : ℚ) - 68/10 = 111/50 := by norm_num
    have h2 : (226/25 : ℚ) - 68/10 = 56/25 := by norm_num
    rw [h1, h2, habs1, habs2]
    norm_num

/-- Witness for C4 as amended, at an empty search result. -/
theorem c4_sorted_by_rounded_degree_witness :
    mismatchCandidates (some []) (fun _ => none) (fun _ => .failure "boom") 2 =
      .ok [] ∧
    find_rating_mismatches (some []) (fun _ => none) (fun _ => .failure "boom") 2 =
      .ok [] ∧
    ([] : List Mismatch).Pairwise
      (fun a b => b.mismatchDegree ≤ a.mismatchDegree) := by
  have hfind : find_rating_mismatches (some []) (fun _ => none)
      (fun _ => .failure "boom") 2 = .ok [] := by
    simp [find_rating_mismatches, mismatchCandidates, mismatchCandidatesAux]
  exact ⟨rfl, hfind,
    (c4_sorted_by_rounded_degree (some []) (fun _ => none)
      (fun _ => .failure "boom") 2 [] [] rfl hfind).2.1⟩

/-! ## C10 -/

/-- Helper: every movie kept by the duplicate-removal loop has an id
outside the initial seen set, and is the first element of the input
carrying its id. -/
theorem dedupeNew_mem_spec :
    ∀ (l : List Movie) (seen : List Nat) (m : Movie), m ∈ dedupeNew l seen →
      m.id ∉ seen ∧ l.find? (fun x => x.id == m.id) = some m := by
  intro l
  induction l with
  | nil =>
    intro seen m hm
    simp [dedupeNew] at hm
  | cons hd rest ih =>
    intro seen m hm
    rw [dedupeNew] at hm
    by_cases hseen : hd.id ∈ seen
    · rw [if_pos hseen] at hm
      obtain ⟨h1, h2⟩ := ih seen m hm
      have hne : (hd.id == m.id) = false := by
        simp only [beq_eq_false_iff_ne, ne_eq]
        intro he
        exact h1 (he ▸ hseen)
      exact ⟨h1, by rw [List.find?_cons, hne]; exact h2⟩
    · rw [if_neg hseen] at hm
      rcases List.mem_cons.mp hm with he | hm'
      · subst he
        exact ⟨hseen, by rw [List.find?_cons, beq_self_eq_true]⟩
      · obtain ⟨h1, h2⟩ := ih (hd.id :: seen) m hm'
        have h1' : m.id ∉ seen := fun hc => h1 (List.mem_cons_of_mem _ hc)
        have hne : (hd.id == m.id) = false := by
          simp only [beq_eq_false_iff_ne, ne_eq]
          intro he
          exact h1 (he ▸ List.mem_cons_self _ _)
        exact ⟨h1', by rw [List.find?_cons, hne]; exact h2⟩

/-- Helper: the duplicate-removal loop returns a list of pairwise
distinct ids. -/
theorem dedupeNew_nodup :
    ∀ (l : List Movie) (seen : List Nat),
      ((dedupeNew l seen).map (fun m => m.id)).Nodup := by
  intro l
  induction l with
  | nil =>
    intro seen
    simp [dedupeNew]
  | cons hd rest ih =>
    intro seen
    rw [dedupeNew]
    by_cases hseen : hd.id ∈ seen
    · rw [if_pos hseen]
      exact ih seen
    · rw [if_neg hseen]
      refine List.nodup_cons.mpr ⟨?_, ih (hd.id :: seen)⟩
      intro hc
      obtain ⟨x, hx, hid⟩ := List.mem_map.mp hc
      obtain ⟨h1, _⟩ := dedupeNew_mem_spec rest (hd.id :: seen) x hx
      exact h1 (hid ▸ List.mem_cons_self _ _)

/-- C10: the vibe recommendation list is capped at `limit`, never
contains the resolved reference movie, and contains no two entries with
the same provider id; the duplicate-removal loop it uses always keeps
the first occurrence of each id. -/
theorem c10_vibe_list_bounded_and_unique (searchResults : Option (List Movie))
    (getEnh : Nat → Except String (Option Enhanced))
    (discover : String → Option (List Movie)) (vibeModifier : String)
    (limit : Nat) (refMovie : Movie) (others : List Movie) (out : List Movie)
    (hsr : searchResults = some (refMovie :: others))
    (hout : find_vibe_movies searchResults getEnh discover vibeModifier limit =
      .ok out) :
    out.length ≤ limit ∧
    (∀ m ∈ out, m.id ≠ refMovie.id) ∧
    (out.map (fun m => m.id)).Nodup ∧
    (∀ (l : List Movie) (seen : List Nat) (m : Movie), m ∈ dedupeNew l seen →
      l.find? (fun x => x.id == m.id) = some m) := by
  subst hsr
  simp only [find_vibe_movies] at hout
  rcases hg : getEnh refMovie.id with e | o
  · rw [hg] at hout
    cases hout
  rw [hg] at hout
  rcases o with _ | refDetails
  · cases hout
    refine ⟨Nat.zero_le _, by simp, by simp, ?_⟩
    intro l seen m hm
    exact (dedupeNew_mem_spec l seen m hm).2
  simp only at hout
  rcases hv : vibeRecsAux discover getEnh
      (get_vibe_modifier_rules vibeModifier refDetails.enhancedRatings) limit
      (refDetails.tmdb.genres.take 2) [] with e | recs
  · rw [hv] at hout
    cases hout
  rw [hv] at hout
  cases hout
  refine ⟨?_, ?_, ?_, ?_⟩
  · rw [List.length_take]
    exact min_le_left _ _
  · intro m hm
    have hm' : m ∈ dedupeNew recs [refMovie.id] :=
      (List.take_sublist _ _).subset hm
    have := (dedupeNew_mem_spec recs [refMovie.id] m hm').1
    simp only [List.mem_singleton] at this
    exact this
  · have hmap : (List.take limit (dedupeNew recs [refMovie.id])).map
        (fun m => m.id) =
        List.take limit ((dedupeNew recs [refMovie.id]).map (fun m => m.id)) :=
      List.map_take _ _ _
    rw [hmap]
    exact (dedupeNew_nodup recs [refMovie.id]).sublist (List.take_sublist _ _)
  · intro l seen m hm
    exact (dedupeNew_mem_spec l seen m hm).2

/-- Witness for C10 at a concrete reference whose enhancement fails. -/
theorem c10_vibe_list_bounded_and_unique_witness :
    find_vibe_movies (some [{ id := 3 }]) (fun _ => .ok none) (fun _ => none)
      "grounded" 5 = .ok [] ∧
    ([] : List Movie).length ≤ 5 :=
  ⟨rfl,
    (c10_vibe_list_bounded_and_unique (some [{ id := 3 }]) (fun _ => .ok none)
      (fun _ => none) "grounded" 5 { id := 3 } [] [] rfl rfl).1⟩

end MovieApi
